import Mathlib

/-!
Verification of the location-to-conditions aggregation pipeline of the
homelab weather page (the `Weather` component in `src/App.jsx`).

The embedding is shallow: the pure interpreter functions are translated
directly; the asynchronous submission handler `fetchWeather` is modelled
as a function from an environment (the responses of the three upstream
services) and the previous component state to the final component state
together with a record of which fetches were issued.  Upstream numeric
fields (temperatures, coordinates, heights) are carried opaquely as `Int`:
the core performs no arithmetic on them.  The upstream `is_day` field, a
0/1 number used only for truthiness, is carried as `Bool`.
-/

/-- Weather code to description mapping (`getWeatherDescription` in the
source): an exact-match lookup over a fixed table, with the `|| "Unknown"`
fallback for any code outside it. -/
def getWeatherDescription (code : Int) : String :=
  if code = 0 then "Clear sky"
  else if code = 1 then "Mainly clear"
  else if code = 2 then "Partly cloudy"
  else if code = 3 then "Overcast"
  else if code = 45 then "Foggy"
  else if code = 48 then "Depositing rime fog"
  else if code = 51 then "Light drizzle"
  else if code = 53 then "Moderate drizzle"
  else if code = 55 then "Dense drizzle"
  else if code = 61 then "Slight rain"
  else if code = 63 then "Moderate rain"
  else if code = 65 then "Heavy rain"
  else if code = 71 then "Slight snow"
  else if code = 73 then "Moderate snow"
  else if code = 75 then "Heavy snow"
  else if code = 77 then "Snow grains"
  else if code = 80 then "Slight rain showers"
  else if code = 81 then "Moderate rain showers"
  else if code = 82 then "Violent rain showers"
  else if code = 85 then "Slight snow showers"
  else if code = 86 then "Heavy snow showers"
  else if code = 95 then "Thunderstorm"
  else if code = 96 then "Thunderstorm with slight hail"
  else if code = 99 then "Thunderstorm with heavy hail"
  else "Unknown"

/-- The 24 condition codes present in the description table. -/
def descCodes : List Int :=
  [0, 1, 2, 3, 45, 48, 51, 53, 55, 61, 63, 65, 71, 73, 75, 77,
   80, 81, 82, 85, 86, 95, 96, 99]

/-- The description table as code-description pairs, in source order. -/
def descPairs : List (Int × String) :=
  [(0, "Clear sky"), (1, "Mainly clear"), (2, "Partly cloudy"),
   (3, "Overcast"), (45, "Foggy"), (48, "Depositing rime fog"),
   (51, "Light drizzle"), (53, "Moderate drizzle"), (55, "Dense drizzle"),
   (61, "Slight rain"), (63, "Moderate rain"), (65, "Heavy rain"),
   (71, "Slight snow"), (73, "Moderate snow"), (75, "Heavy snow"),
   (77, "Snow grains"), (80, "Slight rain showers"),
   (81, "Moderate rain showers"), (82, "Violent rain showers"),
   (85, "Slight snow showers"), (86, "Heavy snow showers"),
   (95, "Thunderstorm"), (96, "Thunderstorm with slight hail"),
   (99, "Thunderstorm with heavy hail")]

/-- Weather code to icon mapping (`getWeatherIcon` in the source): an
ascending-threshold cascade of guards, first match wins. -/
def getWeatherIcon (code : Int) (isDay : Bool) : String :=
  if code = 0 then (if isDay then "☀️" else "🌙")
  else if code ≤ 3 then (if isDay then "🌤️" else "🌙")
  else if code ≤ 48 then "🌫️"
  else if code ≤ 55 then "🌦️"
  else if code ≤ 65 then "🌧️"
  else if code ≤ 77 then "🌨️"
  else if code ≤ 82 then "🌧️"
  else if code ≤ 86 then "🌨️"
  else if code ≥ 95 then "⛈️"
  else "🌡️"

/-- The value returned by `getCoordinates` on success: the first ranked
geocoding match, with parsed coordinates and the display name. -/
structure Location where
  lat : Int
  lon : Int
  name : String
deriving Repr, DecidableEq

/-- Outcome of the geocoding lookup inside `getCoordinates`: the fetch can
reject (transport error, carrying the rejection message), the response can
be non-2xx (`!response.ok`, making `getCoordinates` throw
"Failed to fetch location data"), the parsed array can be empty (making it
throw "City not found. Please check the spelling."), or a first match is
returned. -/
inductive GeoOutcome where
  | transport (msg : String)
  | httpError
  | empty
  | found (loc : Location)
deriving Repr, DecidableEq

/-- The `current` sub-object of the weather response body, with the fields
the component reads.  `is_day` is a 0/1 flag used only for truthiness. -/
structure CurrentWeather where
  temperature_2m : Int
  relative_humidity_2m : Int
  apparent_temperature : Int
  precipitation : Int
  weather_code : Int
  wind_speed_10m : Int
  pressure_msl : Int
  is_day : Bool
deriving Repr, DecidableEq

/-- Outcome of the weather fetch: a transport rejection (with its message),
a non-2xx response (making `fetchWeather` throw
"Failed to fetch weather data"), or a parsed body. -/
inductive WeatherOutcome where
  | transport (msg : String)
  | httpError
  | ok (current : CurrentWeather)
deriving Repr, DecidableEq

/-- One element of the upstream `extremes` array of the tide response. -/
structure TideExtreme where
  type : String
  height : Int
  dt : Nat
deriving Repr, DecidableEq

/-- Outcome of the tide fetch as seen by `fetchTideData`: a non-2xx
response (`!response.ok`), anything thrown inside the `try` (transport
error or a malformed body that fails to parse, both caught), or a parsed
body whose `extremes` field may be missing. -/
inductive TideResponse where
  | httpError
  | thrown
  | ok (extremes : Option (List TideExtreme))
deriving Repr, DecidableEq

/-- One processed tide event as built by `fetchTideData`: the label mapped
to "High Tide" / "Low Tide", the height passed through, and the timestamp
converted to milliseconds (`new Date(extreme.dt * 1000)`). -/
structure TideEvent where
  type : String
  height : Int
  timeMs : Nat
deriving Repr, DecidableEq

/-- The per-extreme mapping applied by `fetchTideData`. -/
def tideEventOfExtreme (e : TideExtreme) : TideEvent :=
  { type := if e.type = "High" then "High Tide" else "Low Tide",
    height := e.height,
    timeMs := e.dt * 1000 }

/-- The query parameters of the tide request issued by `fetchTideData`:
`start` is the call time in unix seconds (`Math.floor(today.getTime() /
1000)`), `length` is `86400 * 2`. -/
structure TideRequest where
  lat : Int
  lon : Int
  start : Nat
  length : Nat
deriving Repr, DecidableEq

/-- The tide request built by `fetchTideData` at call time `nowMs`
(milliseconds since the epoch) for the given point. -/
def mkTideRequest (nowMs : Nat) (lat lon : Int) : TideRequest :=
  { lat := lat, lon := lon, start := nowMs / 1000, length := 86400 * 2 }

/-- The body of `fetchTideData` after the request: `null` on a non-2xx
response, on anything thrown, on a missing or empty `extremes` array;
otherwise the mapped extremes truncated to the first 6. -/
def fetchTideData (resp : TideResponse) : Option (List TideEvent) :=
  match resp with
  | .httpError => none
  | .thrown => none
  | .ok none => none
  | .ok (some extremes) =>
      if extremes.length = 0 then none
      else some ((extremes.map tideEventOfExtreme).take 6)

/-- Whether a tide response counts as failed-or-empty (the cases
`fetchTideData` maps to `null`). -/
def tideAbsent (resp : TideResponse) : Bool :=
  match resp with
  | .httpError => true
  | .thrown => true
  | .ok none => true
  | .ok (some extremes) => extremes.isEmpty

/-- The view model stored by `setWeatherData` on success, field by field as
built in `fetchWeather`. -/
structure Conditions where
  location : String
  lat : Int
  lon : Int
  temperature : Int
  feelsLike : Int
  humidity : Int
  windSpeed : Int
  pressure : Int
  weatherCode : Int
  isDay : Bool
  description : String
  icon : String
deriving Repr, DecidableEq

/-- The `setWeatherData` argument built from the resolved location and the
parsed `current` weather object. -/
def mkConditions (loc : Location) (cur : CurrentWeather) : Conditions :=
  { location := loc.name,
    lat := loc.lat,
    lon := loc.lon,
    temperature := cur.temperature_2m,
    feelsLike := cur.apparent_temperature,
    humidity := cur.relative_humidity_2m,
    windSpeed := cur.wind_speed_10m,
    pressure := cur.pressure_msl,
    weatherCode := cur.weather_code,
    isDay := cur.is_day,
    description := getWeatherDescription cur.weather_code,
    icon := getWeatherIcon cur.weather_code cur.is_day }

/-- The reactive cells of the component: `city` (the input text),
`weatherData`, `tideData`, `loading`, `error`. -/
structure WeatherState where
  city : String
  weatherData : Option Conditions
  tideData : Option (List TideEvent)
  loading : Bool
  error : String
deriving Repr, DecidableEq

/-- The three upstream services, as response functions: geocoding keyed by
the query string, weather and tides keyed by the coordinates passed in the
request URL. -/
structure Env where
  geo : String → GeoOutcome
  weather : Int → Int → WeatherOutcome
  tide : Int → Int → TideResponse

/-- Result of one submission: the final component state plus a record of
which downstream fetches were issued and which geocoding query was sent. -/
structure SubmitResult where
  state : WeatherState
  geoQuery : String
  weatherCalled : Bool
  tideCalled : Bool
deriving Repr

/-- The synchronous prefix of `fetchWeather`: `setLoading(true)`,
`setError("")`, `setWeatherData(null)`, `setTideData(null)`. -/
def submitClear (s : WeatherState) : WeatherState :=
  { s with loading := true, error := "", weatherData := none,
           tideData := none }

/-- The `try`/`catch`/`finally` body of `fetchWeather`, acting on the
already cleared state: geocode the query, then fetch weather, then (only
on weather success) fetch tides; any throw lands in the `catch` which
stores the message in `error`; the `finally` sets `loading` to false. -/
def runFetch (env : Env) (q : String) (s : WeatherState) : SubmitResult :=
  match env.geo q with
  | .transport msg =>
      { state := { s with error := msg, loading := false },
        geoQuery := q, weatherCalled := false, tideCalled := false }
  | .httpError =>
      { state := { s with error := "Failed to fetch location data",
                          loading := false },
        geoQuery := q, weatherCalled := false, tideCalled := false }
  | .empty =>
      { state := { s with error := "City not found. Please check the spelling.",
                          loading := false },
        geoQuery := q, weatherCalled := false, tideCalled := false }
  | .found loc =>
      match env.weather loc.lat loc.lon with
      | .transport msg =>
          { state := { s with error := msg, loading := false },
            geoQuery := q, weatherCalled := true, tideCalled := false }
      | .httpError =>
          { state := { s with error := "Failed to fetch weather data",
                              loading := false },
            geoQuery := q, weatherCalled := true, tideCalled := false }
      | .ok cur =>
          { state := { s with
              weatherData := some (mkConditions loc cur),
              tideData := fetchTideData (env.tide loc.lat loc.lon),
              loading := false },
            geoQuery := q, weatherCalled := true, tideCalled := true }

/-- JS `String.prototype.trim`, embedded on the character list: drop
whitespace from both ends. -/
def jsTrim (s : String) : String :=
  ⟨((s.data.dropWhile Char.isWhitespace).reverse.dropWhile
      Char.isWhitespace).reverse⟩

/-- The query actually geocoded: `city.trim() || "Marseille"` (the default
substitution for an input that is empty after trimming). -/
def searchQuery (s : WeatherState) : String :=
  if jsTrim s.city = "" then "Marseille" else jsTrim s.city

/-- The submission handler `fetchWeather`: clear the previous result
state, substitute the default city for an empty trimmed input, then run
the fetch chain. -/
def fetchWeather (env : Env) (s : WeatherState) : SubmitResult :=
  runFetch env (searchQuery s) (submitClear s)

/-- The request-state tagged union of the spec, derived from the reactive
cells the way the component renders them: the loading flag, else a
non-empty error, else a stored view model, else idle. -/
inductive RequestState where
  | idle
  | loading
  | success (c : Conditions) (tides : Option (List TideEvent))
  | failure (msg : String)
deriving Repr, DecidableEq

/-- Derive the request state from the component state. -/
def requestState (s : WeatherState) : RequestState :=
  if s.loading then .loading
  else if s.error = "" then
    match s.weatherData with
    | some c => .success c s.tideData
    | none => .idle
  else .failure s.error

/-- Two submission results agree on everything except the preserved input
text: same geocoding query, same fetches issued, same stored weather, tide
and error cells, same loading flag. -/
def sameOutcome (a b : SubmitResult) : Prop :=
  a.geoQuery = b.geoQuery ∧ a.weatherCalled = b.weatherCalled ∧
  a.tideCalled = b.tideCalled ∧
  a.state.weatherData = b.state.weatherData ∧
  a.state.tideData = b.state.tideData ∧
  a.state.loading = b.state.loading ∧
  a.state.error = b.state.error

/-- The message with which the weather fetch step throws, when it fails. -/
def weatherFailMsg : WeatherOutcome → Option String
  | .transport msg => some msg
  | .httpError => some "Failed to fetch weather data"
  | .ok _ => none

/-- All transport-failure messages an environment can produce on the two
fatal fetch paths are non-empty (true of real fetch rejections). -/
def envMsgsNonempty (env : Env) : Prop :=
  (∀ q msg, env.geo q = .transport msg → msg ≠ "") ∧
  (∀ la lo msg, env.weather la lo = .transport msg → msg ≠ "")

/-- `fetchTideData` returns `null` exactly on the failed-or-empty
responses. -/
theorem fetchTideData_eq_none_iff (resp : TideResponse) :
    fetchTideData resp = none ↔ tideAbsent resp = true := by
  cases resp with
  | httpError => simp [fetchTideData, tideAbsent]
  | thrown => simp [fetchTideData, tideAbsent]
  | ok e =>
      cases e with
      | none => simp [fetchTideData, tideAbsent]
      | some l => cases l <;> simp [fetchTideData, tideAbsent]

set_option maxHeartbeats 1600000 in
/-- C4: the icon function is a first-match-wins ascending-threshold
cascade on the condition code: 0 maps to a clear day/night variant; 1-3 to
a partly-cloudy day/night variant; 4-48 to fog; 49-55 to drizzle; 56-65 to
rain; 66-77 to snow; 78-82 to the rain-shower symbol; 83-86 to the
snow-shower symbol; any code at least 95 to thunderstorm; 87-94 to the
generic thermometer fallback.  Moreover the day and night variants for
code 0 differ, code 3 by day gets the partly-cloudy day symbol rather than
the clear-sky one, and code 96 gets the thunderstorm symbol regardless of
the day/night flag. -/
theorem c4_icon_cascade :
    (∀ d, getWeatherIcon 0 d = (if d then "☀️" else "🌙")) ∧
    (∀ code : Int, 1 ≤ code → code ≤ 3 →
      ∀ d, getWeatherIcon code d = (if d then "🌤️" else "🌙")) ∧
    (∀ code : Int, 4 ≤ code → code ≤ 48 → ∀ d, getWeatherIcon code d = "🌫️") ∧
    (∀ code : Int, 49 ≤ code → code ≤ 55 → ∀ d, getWeatherIcon code d = "🌦️") ∧
    (∀ code : Int, 56 ≤ code → code ≤ 65 → ∀ d, getWeatherIcon code d = "🌧️") ∧
    (∀ code : Int, 66 ≤ code → code ≤ 77 → ∀ d, getWeatherIcon code d = "🌨️") ∧
    (∀ code : Int, 78 ≤ code → code ≤ 82 → ∀ d, getWeatherIcon code d = "🌧️") ∧
    (∀ code : Int, 83 ≤ code → code ≤ 86 → ∀ d, getWeatherIcon code d = "🌨️") ∧
    (∀ code : Int, 95 ≤ code → ∀ d, getWeatherIcon code d = "⛈️") ∧
    (∀ code : Int, 87 ≤ code → code ≤ 94 → ∀ d, getWeatherIcon code d = "🌡️") ∧
    getWeatherIcon 0 true ≠ getWeatherIcon 0 false ∧
    getWeatherIcon 3 true = "🌤️" ∧
    getWeatherIcon 3 true ≠ getWeatherIcon 0 true ∧
    getWeatherIcon 96 false = "⛈️" ∧
    getWeatherIcon 96 true = "⛈️" := by
  refine ⟨?_, ?_, ?_, ?_, ?_, ?_, ?_, ?_, ?_, ?_, by decide, by decide,
    by decide, by decide, by decide⟩
  · intro d; cases d <;> decide
  · intro code h1 h2 d
    unfold getWeatherIcon
    split_ifs <;> first | rfl | omega
  · intro code h1 h2 d
    unfold getWeatherIcon
    split_ifs <;> first | rfl | omega
  · intro code h1 h2 d
    unfold getWeatherIcon
    split_ifs <;> first | rfl | omega
  · intro code h1 h2 d
    unfold getWeatherIcon
    split_ifs <;> first | rfl | omega
  · intro code h1 h2 d
    unfold getWeatherIcon
    split_ifs <;> first | rfl | omega
  · intro code h1 h2 d
    unfold getWeatherIcon
    split_ifs <;> first | rfl | omega
  · intro code h1 h2 d
    unfold getWeatherIcon
    split_ifs <;> first | rfl | omega
  · intro code h1 d
    unfold getWeatherIcon
    split_ifs <;> first | rfl | omega
  · intro code h1 h2 d
    unfold getWeatherIcon
    split_ifs <;> first | rfl | omega

/-- C4 witness: the cascade evaluated at concrete points in several
ranges. -/
theorem c4_icon_cascade_witness :
    getWeatherIcon 2 false = "🌙" ∧ getWeatherIcon 30 true = "🌫️" ∧
    getWeatherIcon 50 true = "🌦️" ∧ getWeatherIcon 60 false = "🌧️" ∧
    getWeatherIcon 70 true = "🌨️" ∧ getWeatherIcon 80 true = "🌧️" ∧
    getWeatherIcon 85 true = "🌨️" ∧ getWeatherIcon 100 true = "⛈️" ∧
    getWeatherIcon 90 true = "🌡️" :=
  ⟨by simpa using c4_icon_cascade.2.1 2 (by decide) (by decide) false,
   c4_icon_cascade.2.2.1 30 (by decide) (by decide) true,
   c4_icon_cascade.2.2.2.1 50 (by decide) (by decide) true,
   c4_icon_cascade.2.2.2.2.1 60 (by decide) (by decide) false,
   c4_icon_cascade.2.2.2.2.2.1 70 (by decide) (by decide) true,
   c4_icon_cascade.2.2.2.2.2.2.1 80 (by decide) (by decide) true,
   c4_icon_cascade.2.2.2.2.2.2.2.1 85 (by decide) (by decide) true,
   c4_icon_cascade.2.2.2.2.2.2.2.2.1 100 (by decide) true,
   c4_icon_cascade.2.2.2.2.2.2.2.2.2.1 90 (by decide) (by decide) true⟩

/-- C5: the description function is a total exact-match lookup over the
fixed 24-code table; every code in the table maps to its fixed
description, and every integer code outside the table maps to exactly
"Unknown". -/
theorem c5_describe_total :
    (∀ p ∈ descPairs, getWeatherDescription p.1 = p.2) ∧
    (∀ code : Int, code ∉ descCodes →
      getWeatherDescription code = "Unknown") := by
  constructor
  · decide
  · intro code h
    simp [descCodes] at h
    simp [getWeatherDescription, h]

/-- C5 witness: a table hit and a table miss evaluated concretely. -/
theorem c5_describe_total_witness :
    getWeatherDescription 1 = "Mainly clear" ∧
    getWeatherDescription 7 = "Unknown" ∧
    getWeatherDescription (-3) = "Unknown" :=
  ⟨c5_describe_total.1 (1, "Mainly clear") (by decide),
   c5_describe_total.2 7 (by decide),
   c5_describe_total.2 (-3) (by decide)⟩

/-- C9: the night-time icons for clear sky and partly-cloudy coincide:
codes 0, 1, 2 and 3 all yield the moon symbol at night, so codes 0-3 are
indistinguishable by icon at night. -/
theorem c9_night_icons_coincide :
    getWeatherIcon 0 false = "🌙" ∧ getWeatherIcon 1 false = "🌙" ∧
    getWeatherIcon 2 false = "🌙" ∧ getWeatherIcon 3 false = "🌙" := by
  refine ⟨by decide, by decide, by decide, by decide⟩

/-- C10: every negative condition code falls through the zero test into
the partly-cloudy clause (day/night variant), and the thermometer fallback
is reachable only for codes 87 through 94. -/
theorem c10_negative_codes :
    (∀ code : Int, code < 0 →
      ∀ d, getWeatherIcon code d = (if d then "🌤️" else "🌙")) ∧
    (∀ code : Int, ∀ d, getWeatherIcon code d = "🌡️" →
      87 ≤ code ∧ code ≤ 94) := by
  constructor
  · intro code h d
    unfold getWeatherIcon
    split_ifs <;> first | rfl | omega
  · intro code d h
    unfold getWeatherIcon at h
    split_ifs at h <;> first | (exact absurd h (by decide)) | omega

/-- C10 witness: a negative code evaluated concretely, and the converse
direction of the fallback at code 90. -/
theorem c10_negative_codes_witness :
    getWeatherIcon (-5) true = "🌤️" ∧ (87 ≤ (90 : Int) ∧ (90 : Int) ≤ 94) :=
  ⟨by simpa using c10_negative_codes.1 (-5) (by decide) true,
   c10_negative_codes.2 90 true (by decide)⟩

/-- The geocoding query string of a submission result is the query that
was sent. -/
theorem runFetch_geoQuery (env : Env) (q : String) (st : WeatherState) :
    (runFetch env q st).geoQuery = q := by
  cases hg : env.geo q with
  | transport m => simp [runFetch, hg]
  | httpError => simp [runFetch, hg]
  | empty => simp [runFetch, hg]
  | found loc =>
      cases hw : env.weather loc.lat loc.lon <;> simp [runFetch, hg, hw]

/-- Running the fetch chain on two states that agree on every cell it
reads or writes (everything except the preserved input text) produces the
same outcome. -/
theorem runFetch_congr (env : Env) (q : String) (s1 s2 : WeatherState)
    (hw : s1.weatherData = s2.weatherData)
    (ht : s1.tideData = s2.tideData)
    (hl : s1.loading = s2.loading)
    (he : s1.error = s2.error) :
    sameOutcome (runFetch env q s1) (runFetch env q s2) := by
  cases hg : env.geo q with
  | transport m => simp [runFetch, hg, sameOutcome, hw, ht, hl, he]
  | httpError => simp [runFetch, hg, sameOutcome, hw, ht, hl, he]
  | empty => simp [runFetch, hg, sameOutcome, hw, ht, hl, he]
  | found loc =>
      cases hwo : env.weather loc.lat loc.lon <;>
        simp [runFetch, hg, hwo, sameOutcome, hw, ht, hl, he]

/-- A fixed parsed weather body used by the concrete witnesses. -/
def curA : CurrentWeather :=
  { temperature_2m := 18, relative_humidity_2m := 60,
    apparent_temperature := 17, precipitation := 0, weather_code := 1,
    wind_speed_10m := 10, pressure_msl := 1013, is_day := true }

/-- A fixed resolved location used by the concrete witnesses. -/
def locA : Location := { lat := 48, lon := 2, name := "Paris, France" }

/-- An environment where geocoding and weather succeed and the tide
service answers non-2xx. -/
def envA : Env :=
  { geo := fun _ => .found locA,
    weather := fun _ _ => .ok curA,
    tide := fun _ _ => .httpError }

/-- An environment whose geocoder answers 2xx with zero matches. -/
def envB : Env :=
  { geo := fun _ => .empty,
    weather := fun _ _ => .ok curA,
    tide := fun _ _ => .ok none }

/-- An environment where geocoding succeeds and the weather service
answers non-2xx. -/
def envC : Env :=
  { geo := fun _ => .found locA,
    weather := fun _ _ => .httpError,
    tide := fun _ _ => .ok none }

/-- An initial component state with the input text "Paris". -/
def s0 : WeatherState :=
  { city := "Paris", weatherData := none, tideData := none,
    loading := false, error := "" }

/-- A component state with whitespace-only input text. -/
def sBlank : WeatherState :=
  { city := "   ", weatherData := none, tideData := none,
    loading := false, error := "" }

/-- C1: whenever geocoding and the weather fetch succeed, the submission
ends in Success whatever the tide fetch does, the error cell stays empty,
and the stored tide data is absent exactly when the tide response failed
or carried no events; a tide failure never produces Failure. -/
theorem c1_tide_never_fails (env : Env) (s : WeatherState)
    (loc : Location) (cur : CurrentWeather)
    (hg : env.geo (searchQuery s) = .found loc)
    (hw : env.weather loc.lat loc.lon = .ok cur) :
    requestState (fetchWeather env s).state =
      .success (mkConditions loc cur)
        (fetchTideData (env.tide loc.lat loc.lon)) ∧
    (fetchWeather env s).state.error = "" ∧
    ((fetchWeather env s).state.tideData = none ↔
      tideAbsent (env.tide loc.lat loc.lon) = true) := by
  have hfd := fetchTideData_eq_none_iff (env.tide loc.lat loc.lon)
  simp [fetchWeather, runFetch, hg, hw, submitClear, requestState, hfd]

/-- C1 witness: concrete successful geocoding and weather with a failing
tide service. -/
theorem c1_tide_never_fails_witness :
    requestState (fetchWeather envA s0).state =
      .success (mkConditions locA curA)
        (fetchTideData (envA.tide locA.lat locA.lon)) ∧
    (fetchWeather envA s0).state.error = "" ∧
    ((fetchWeather envA s0).state.tideData = none ↔
      tideAbsent (envA.tide locA.lat locA.lon) = true) :=
  c1_tide_never_fails envA s0 locA curA rfl rfl

/-- C2: a 2xx geocoding response with zero matches ends the submission in
Failure with exactly the "City not found" message, and neither the weather
fetch nor the tide fetch is issued. -/
theorem c2_city_not_found (env : Env) (s : WeatherState)
    (hg : env.geo (searchQuery s) = .empty) :
    (fetchWeather env s).state.error =
      "City not found. Please check the spelling." ∧
    requestState (fetchWeather env s).state =
      .failure "City not found. Please check the spelling." ∧
    (fetchWeather env s).weatherCalled = false ∧
    (fetchWeather env s).tideCalled = false := by
  simp [fetchWeather, runFetch, hg, submitClear, requestState]

/-- C2 witness: a concrete empty geocoding result. -/
theorem c2_city_not_found_witness :
    (fetchWeather envB s0).state.error =
      "City not found. Please check the spelling." ∧
    requestState (fetchWeather envB s0).state =
      .failure "City not found. Please check the spelling." ∧
    (fetchWeather envB s0).weatherCalled = false ∧
    (fetchWeather envB s0).tideCalled = false :=
  c2_city_not_found envB s0 rfl

/-- C3: geocoding success followed by a weather-fetch failure (non-2xx or
transport) ends the submission in Failure carrying the failing fetch's
message, the tide fetch is never issued, and no view model is stored. -/
theorem c3_weather_failure (env : Env) (s : WeatherState)
    (loc : Location) (msg : String)
    (hg : env.geo (searchQuery s) = .found loc)
    (hw : weatherFailMsg (env.weather loc.lat loc.lon) = some msg) :
    (fetchWeather env s).state.error = msg ∧
    (fetchWeather env s).weatherCalled = true ∧
    (fetchWeather env s).tideCalled = false ∧
    (fetchWeather env s).state.weatherData = none ∧
    (msg ≠ "" →
      requestState (fetchWeather env s).state = .failure msg) := by
  cases hwc : env.weather loc.lat loc.lon with
  | transport m =>
      rw [hwc] at hw
      simp [weatherFailMsg] at hw
      subst hw
      refine ⟨?_, ?_, ?_, ?_, ?_⟩ <;>
        simp [fetchWeather, runFetch, hg, hwc, submitClear, requestState]
  | httpError =>
      rw [hwc] at hw
      simp [weatherFailMsg] at hw
      subst hw
      refine ⟨?_, ?_, ?_, ?_, ?_⟩ <;>
        simp [fetchWeather, runFetch, hg, hwc, submitClear, requestState]
  | ok cur =>
      rw [hwc] at hw
      simp [weatherFailMsg] at hw

/-- C3 witness: a concrete non-2xx weather response after successful
geocoding. -/
theorem c3_weather_failure_witness :
    (fetchWeather envC s0).state.error = "Failed to fetch weather data" ∧
    (fetchWeather envC s0).weatherCalled = true ∧
    (fetchWeather envC s0).tideCalled = false ∧
    (fetchWeather envC s0).state.weatherData = none ∧
    ("Failed to fetch weather data" ≠ "" →
      requestState (fetchWeather envC s0).state =
        .failure "Failed to fetch weather data") :=
  c3_weather_failure envC s0 locA "Failed to fetch weather data" rfl rfl

/-- C6: a submission whose input is empty after trimming geocodes the
literal default "Marseille" and produces the same outcome (same query,
same fetches, same stored cells) as a submission of the literal default;
the substitution happens in the handler before geocoding. -/
theorem c6_default_city (env : Env) (s : WeatherState)
    (h : jsTrim s.city = "") :
    searchQuery s = "Marseille" ∧
    (fetchWeather env s).geoQuery = "Marseille" ∧
    sameOutcome (fetchWeather env s)
      (fetchWeather env { s with city := "Marseille" }) := by
  have h1 : searchQuery s = "Marseille" := by simp [searchQuery, h]
  have h2 : searchQuery { s with city := "Marseille" } = "Marseille" := by
    show (if jsTrim "Marseille" = "" then "Marseille"
      else jsTrim "Marseille") = "Marseille"
    decide
  refine ⟨h1, ?_, ?_⟩
  · simp [fetchWeather, runFetch_geoQuery, h1]
  · simp only [fetchWeather, h1, h2]
    exact runFetch_congr env "Marseille" _ _ rfl rfl rfl rfl

/-- C6 witness: a whitespace-only input evaluated against a concrete
environment. -/
theorem c6_default_city_witness :
    searchQuery sBlank = "Marseille" ∧
    (fetchWeather envA sBlank).geoQuery = "Marseille" ∧
    sameOutcome (fetchWeather envA sBlank)
      (fetchWeather envA { sBlank with city := "Marseille" }) :=
  c6_default_city envA sBlank (by decide)

/-- C7: the tide request covers exactly 172800 seconds starting at the
unix-seconds call time, and a successful response with a non-empty
extremes list is mapped elementwise in upstream order, truncated to at
most the first 6 events, each label becoming "High Tide" exactly when it
is "High" and "Low Tide" otherwise. -/
theorem c7_tide_window (nowMs : Nat) (lat lon : Int)
    (l : List TideExtreme) (h : l ≠ []) :
    (mkTideRequest nowMs lat lon).start = nowMs / 1000 ∧
    (mkTideRequest nowMs lat lon).length = 172800 ∧
    fetchTideData (.ok (some l)) =
      some ((l.map tideEventOfExtreme).take 6) ∧
    ((l.map tideEventOfExtreme).take 6).length ≤ 6 ∧
    (∀ e, (tideEventOfExtreme e).type =
      if e.type = "High" then "High Tide" else "Low Tide") := by
  refine ⟨rfl, rfl, ?_, ?_, fun e => rfl⟩
  · simp [fetchTideData, List.length_eq_zero, h]
  · simp only [List.length_take, List.length_map]
    omega

/-- A concrete upstream extremes list used by the C7 witness. -/
def extremesA : List TideExtreme :=
  [{ type := "High", height := 3, dt := 1000 },
   { type := "Low", height := 1, dt := 2000 }]

/-- C7 witness: the tide fetch evaluated on a concrete two-event
response. -/
theorem c7_tide_window_witness :
    (mkTideRequest 1234567 48 2).start = 1234567 / 1000 ∧
    (mkTideRequest 1234567 48 2).length = 172800 ∧
    fetchTideData (.ok (some extremesA)) =
      some ((extremesA.map tideEventOfExtreme).take 6) ∧
    ((extremesA.map tideEventOfExtreme).take 6).length ≤ 6 ∧
    (∀ e, (tideEventOfExtreme e).type =
      if e.type = "High" then "High Tide" else "Low Tide") :=
  c7_tide_window 1234567 48 2 extremesA (by decide)

/-- C8: every submission first sets the loading flag and clears the
previous weather, tide and error cells, the handler is exactly that
cleared state fed to the fetch chain, and on completion the loading flag
is off and the derived request state is a terminal Success or Failure —
never Loading, and never both terminals at once. -/
theorem c8_loading_lifecycle (env : Env) (s : WeatherState)
    (h : envMsgsNonempty env) :
    (submitClear s).loading = true ∧
    (submitClear s).error = "" ∧
    (submitClear s).weatherData = none ∧
    (submitClear s).tideData = none ∧
    fetchWeather env s = runFetch env (searchQuery s) (submitClear s) ∧
    (fetchWeather env s).state.loading = false ∧
    requestState (fetchWeather env s).state ≠ .loading ∧
    ((∃ c t, requestState (fetchWeather env s).state = .success c t) ∨
      (∃ m, requestState (fetchWeather env s).state = .failure m)) ∧
    (∀ c t m, requestState (fetchWeather env s).state = .success c t →
      requestState (fetchWeather env s).state = .failure m → False) := by
  refine ⟨rfl, rfl, rfl, rfl, rfl, ?_, ?_, ?_, ?_⟩
  · cases hg : env.geo (searchQuery s) with
    | transport m => simp [fetchWeather, runFetch, hg, submitClear]
    | httpError => simp [fetchWeather, runFetch, hg, submitClear]
    | empty => simp [fetchWeather, runFetch, hg, submitClear]
    | found loc =>
        cases hw : env.weather loc.lat loc.lon <;>
          simp [fetchWeather, runFetch, hg, hw, submitClear]
  · cases hg : env.geo (searchQuery s) with
    | transport m =>
        have hm := h.1 _ _ hg
        simp [fetchWeather, runFetch, hg, submitClear, requestState, hm]
    | httpError => simp [fetchWeather, runFetch, hg, submitClear, requestState]
    | empty => simp [fetchWeather, runFetch, hg, submitClear, requestState]
    | found loc =>
        cases hw : env.weather loc.lat loc.lon with
        | transport m =>
            have hm := h.2 _ _ _ hw
            simp [fetchWeather, runFetch, hg, hw, submitClear, requestState,
              hm]
        | httpError =>
            simp [fetchWeather, runFetch, hg, hw, submitClear, requestState]
        | ok cur =>
            simp [fetchWeather, runFetch, hg, hw, submitClear, requestState]
  · cases hg : env.geo (searchQuery s) with
    | transport m =>
        have hm := h.1 _ _ hg
        right
        exact ⟨m, by simp [fetchWeather, runFetch, hg, submitClear,
          requestState, hm]⟩
    | httpError =>
        right
        exact ⟨"Failed to fetch location data",
          by simp [fetchWeather, runFetch, hg, submitClear, requestState]⟩
    | empty =>
        right
        exact ⟨"City not found. Please check the spelling.",
          by simp [fetchWeather, runFetch, hg, submitClear, requestState]⟩
    | found loc =>
        cases hw : env.weather loc.lat loc.lon with
        | transport m =>
            have hm := h.2 _ _ _ hw
            right
            exact ⟨m, by simp [fetchWeather, runFetch, hg, hw, submitClear,
              requestState, hm]⟩
        | httpError =>
            right
            exact ⟨"Failed to fetch weather data",
              by simp [fetchWeather, runFetch, hg, hw, submitClear,
                requestState]⟩
        | ok cur =>
            left
            exact ⟨mkConditions loc cur,
              fetchTideData (env.tide loc.lat loc.lon),
              by simp [fetchWeather, runFetch, hg, hw, submitClear,
                requestState]⟩
  · intro c t m hsucc hfail
    rw [hsucc] at hfail
    exact RequestState.noConfusion hfail

/-- C8 witness: the lifecycle evaluated in a concrete environment with no
transport failures. -/
theorem c8_loading_lifecycle_witness :
    (submitClear s0).loading = true ∧
    (submitClear s0).error = "" ∧
    (submitClear s0).weatherData = none ∧
    (submitClear s0).tideData = none ∧
    fetchWeather envA s0 = runFetch envA (searchQuery s0) (submitClear s0) ∧
    (fetchWeather envA s0).state.loading = false ∧
    requestState (fetchWeather envA s0).state ≠ .loading ∧
    ((∃ c t, requestState (fetchWeather envA s0).state = .success c t) ∨
      (∃ m, requestState (fetchWeather envA s0).state = .failure m)) ∧
    (∀ c t m, requestState (fetchWeather envA s0).state = .success c t →
      requestState (fetchWeather envA s0).state = .failure m → False) :=
  c8_loading_lifecycle envA s0
    ⟨fun q msg hc => by simp [envA] at hc,
     fun la lo msg hc => by simp [envA] at hc⟩
